import Mathlib

/-!
Shallow embedding of the EnergyTrack service (`backend/main.py`): a relational
store with `users` and `entries` tables, the pydantic validation rule of
`EntryCreate`, and the route handlers `get_user_page`, `get_entries`,
`create_entry` and `create_demo_user`.  Datetimes are modelled as integers
(minutes); the database is a pure state record threaded through the handlers.
-/

namespace EnergyLog

/-- Modelled from the spec: `backend/models.py` (the `User` ORM model) is not
in the sources; per spec §3 a User has a generated integer primary key `id`
and an opaque `secret_key` token generated at creation. -/
structure User where
  id : Nat
  secret_key : String
deriving DecidableEq, Repr

/-- Modelled from the spec: `backend/models.py` (the `Entry` ORM model) is not
in the sources; per spec §3 an Entry has a generated integer primary key `id`,
a required `user_id` foreign key, a required `timestamp` (modelled as an
integer), an optional text `description` and an optional integer `energy`. -/
structure Entry where
  id : Nat
  user_id : Nat
  timestamp : Int
  description : Option String
  energy : Option Int
deriving DecidableEq, Repr

/-- The relational store: the two tables, plus the autoincrement counters for
the generated primary keys (modelled from spec §3: ids are generated integer
primary keys, assigned sequentially on insert). -/
structure DB where
  users : List User
  entries : List Entry
  nextUserId : Nat
  nextEntryId : Nat
deriving DecidableEq, Repr

/-- The two error kinds of the HTTP layer: 404 `HTTPException` for an unknown
secret, and the 422 pydantic `ValueError` raised by the validator. -/
inductive Err where
  | notFound
  | validation (msg : String)
deriving DecidableEq, Repr

deriving instance DecidableEq for Except

/-- Lookup `db.query(User).filter(User.secret_key == secret).first()`. -/
def findUser (db : DB) (secret : String) : Option User :=
  (db.users.filter (fun u => u.secret_key == secret)).head?

/-- The request body of `POST /api/u/{secret}/entries` (`EntryCreate`). -/
structure EntryCreate where
  timestamp : Int
  description : Option String
  energy : Option Int
deriving DecidableEq, Repr

/-- The `@model_validator` `EntryCreate.check_at_least_one`: rejects a payload
whose `description` and `energy` are both null, then rejects an `energy`
outside 1..10; otherwise returns the payload itself. -/
def check_at_least_one (e : EntryCreate) : Except Err EntryCreate :=
  if e.description = none ∧ e.energy = none then
    .error (.validation "At least one of description or energy must be provided")
  else
    match e.energy with
    | some v =>
      if v < 1 ∨ v > 10 then .error (.validation "Energy must be between 1 and 10")
      else .ok e
    | none => .ok e

/-- Route `GET /u/{secret}`: looks the user up by secret key, 404 when absent;
on success it serves the static `index.html` verbatim (the file content is
outside the model, so success carries no data). -/
def get_user_page (db : DB) (secret : String) : Except Err Unit :=
  match findUser db secret with
  | none => .error .notFound
  | some _ => .ok ()

/-- Descending insertion by `timestamp` (helper for `order_by desc`). -/
def insertDesc (e : Entry) : List Entry → List Entry
  | [] => [e]
  | x :: xs => if x.timestamp ≤ e.timestamp then e :: x :: xs else x :: insertDesc e xs

/-- Sorting `order_by(Entry.timestamp.desc())`: sort the rows newest first. -/
def sortDesc : List Entry → List Entry
  | [] => []
  | x :: xs => insertDesc x (sortDesc xs)

/-- Route `GET /api/u/{secret}/entries`: look the user up by secret key (404 when
absent), then return that user's entries ordered by timestamp descending. -/
def get_entries (db : DB) (secret : String) : Except Err (List Entry) :=
  match findUser db secret with
  | none => .error .notFound
  | some u => .ok (sortDesc (db.entries.filter (fun e => e.user_id == u.id)))

/-- Route `POST /api/u/{secret}/entries`: the body is validated first (FastAPI runs
the pydantic validator before the handler, a 422), then the user is looked up
(404 when absent), then one row is inserted and returned.  The returned `DB`
is the post-state; on any error the store is unchanged. -/
def create_entry (db : DB) (secret : String) (payload : EntryCreate) :
    DB × Except Err Entry :=
  match check_at_least_one payload with
  | .error e => (db, .error e)
  | .ok p =>
    match findUser db secret with
    | none => (db, .error .notFound)
    | some u =>
      let row : Entry :=
        { id := db.nextEntryId, user_id := u.id, timestamp := p.timestamp,
          description := p.description, energy := p.energy }
      ({ db with entries := db.entries ++ [row], nextEntryId := db.nextEntryId + 1 },
       .ok row)

/-- One row of the hard-coded demo table of `create_demo_user`. -/
structure DemoRow where
  minutes_ago : Nat
  description : String
  energy : Option Int
deriving DecidableEq, Repr

/-- The hard-coded `demo_entries` table of `create_demo_user`, verbatim. -/
def demo_entries : List DemoRow := [
  ⟨5, "Just had coffee", some 6⟩,
  ⟨45, "Woke up, feeling groggy", some 4⟩,
  ⟨120, "Couldn\x27t sleep well", some 3⟩,
  ⟨180, "Late night snack - crackers", none⟩,
  ⟨300, "Gaming session", some 5⟩,
  ⟨420, "Dinner - pasta with pesto", none⟩,
  ⟨540, "Afternoon walk", some 7⟩,
  ⟨600, "Lunch - sandwich", none⟩,
  ⟨720, "Morning meeting, tired", some 4⟩,
  ⟨840, "Breakfast - oatmeal", some 6⟩,
  ⟨1500, "McDonalds - 9 chicken mcnuggets", none⟩,
  ⟨1515, "Extreme fatigue(!), brain turning off", some 2⟩,
  ⟨1700, "Cheese bagel with chicken", none⟩,
  ⟨1800, "Greek yogurt, mango, pecans", some 7⟩,
  ⟨2880, "Sleep 9h, difficult to wake up", some 4⟩,
  ⟨3000, "Bagel with scrambled eggs", none⟩,
  ⟨3200, "Indomie with veggies", none⟩,
  ⟨3400, "Focused work session", some 9⟩,
  ⟨4320, "Woke up, black coffee", some 5⟩,
  ⟨4500, "Pho for lunch", none⟩,
  ⟨4680, "Afternoon slump", some 3⟩,
  ⟨4800, "Evening cooking", some 6⟩,
  ⟨5000, "Late night reading", some 5⟩,
  ⟨5760, "Oatmeal with blueberries", some 6⟩,
  ⟨5900, "Green tea, reading", some 7⟩,
  ⟨6100, "Leftover pasta", none⟩,
  ⟨6300, "Walk in the park", some 7⟩,
  ⟨6500, "Salmon dinner", none⟩,
  ⟨7200, "Slept in, croissant", some 6⟩,
  ⟨7400, "Ramen for lunch", none⟩,
  ⟨7600, "Vitamin D supplement", none⟩,
  ⟨7800, "Stir fry tofu", none⟩,
  ⟨8000, "Late night coding", some 4⟩,
  ⟨8640, "Eggs and toast", some 7⟩,
  ⟨8800, "Burrito bowl", none⟩,
  ⟨9000, "Post-lunch crash", some 3⟩,
  ⟨9200, "Espresso pick-me-up", some 6⟩,
  ⟨9400, "Light dinner, soup", none⟩]

/-- The loop body of `create_demo_user`: turn each demo row into an `Entry`
owned by `uid`, timestamped `now - minutes_ago`, with sequential ids. -/
def insertDemo (uid : Nat) (now : Int) (nid : Nat) : List DemoRow → List Entry
  | [] => []
  | r :: rs =>
    { id := nid, user_id := uid, timestamp := now - (r.minutes_ago : Int),
      description := some r.description, energy := r.energy } :: insertDemo uid now (nid + 1) rs

/-- Route `GET /demo`: create a fresh user (its secret key is generated
outside the model and passed in), then insert the 38 demo entries with timestamps
`now - minutes_ago`. -/
def create_demo_user (db : DB) (now : Int) (secret : String) : DB :=
  let u : User := { id := db.nextUserId, secret_key := secret }
  { users := db.users ++ [u],
    entries := db.entries ++ insertDemo u.id now db.nextEntryId demo_entries,
    nextUserId := db.nextUserId + 1,
    nextEntryId := db.nextEntryId + demo_entries.length }

/-! ## General lemmas about the sort and the demo loop -/

theorem insertDesc_perm (e : Entry) (l : List Entry) : (insertDesc e l).Perm (e :: l) := by
  induction l with
  | nil => exact List.Perm.refl _
  | cons x xs ih =>
    simp only [insertDesc]
    split
    · exact List.Perm.refl _
    · exact (ih.cons x).trans (List.Perm.swap e x xs)

theorem sortDesc_perm (l : List Entry) : (sortDesc l).Perm l := by
  induction l with
  | nil => exact List.Perm.refl _
  | cons x xs ih => exact (insertDesc_perm x (sortDesc xs)).trans (ih.cons x)

theorem insertDesc_sorted (e : Entry) (l : List Entry)
    (h : l.Pairwise (fun a b => b.timestamp ≤ a.timestamp)) :
    (insertDesc e l).Pairwise (fun a b => b.timestamp ≤ a.timestamp) := by
  induction l with
  | nil => simp [insertDesc]
  | cons x xs ih =>
    rw [List.pairwise_cons] at h
    simp only [insertDesc]
    split
    · rename_i hle
      refine List.pairwise_cons.mpr ⟨?_, List.pairwise_cons.mpr h⟩
      intro b hb
      rcases List.mem_cons.mp hb with rfl | hb
      · exact hle
      · exact le_trans (h.1 b hb) hle
    · rename_i hgt
      push_neg at hgt
      refine List.pairwise_cons.mpr ⟨?_, ih h.2⟩
      intro b hb
      rcases List.mem_cons.mp ((insertDesc_perm e xs).mem_iff.mp hb) with rfl | hbxs
      · exact le_of_lt hgt
      · exact h.1 b hbxs

theorem sortDesc_sorted (l : List Entry) :
    (sortDesc l).Pairwise (fun a b => b.timestamp ≤ a.timestamp) := by
  induction l with
  | nil => simp [sortDesc]
  | cons x xs ih => exact insertDesc_sorted x (sortDesc xs) ih

theorem sortDesc_eq_of_sorted (l : List Entry)
    (h : l.Pairwise (fun a b => b.timestamp ≤ a.timestamp)) : sortDesc l = l := by
  induction l with
  | nil => rfl
  | cons x xs ih =>
    rw [List.pairwise_cons] at h
    simp only [sortDesc, ih h.2]
    cases xs with
    | nil => rfl
    | cons y ys =>
      simp only [insertDesc]
      rw [if_pos (h.1 y (List.mem_cons_self y ys))]

theorem insertDemo_fields (uid : Nat) (now : Int) (nid : Nat) (rows : List DemoRow) :
    (insertDemo uid now nid rows).map (fun e => (e.timestamp, e.description, e.energy)) =
      rows.map (fun r => (now - (r.minutes_ago : Int), some r.description, r.energy)) := by
  induction rows generalizing nid with
  | nil => rfl
  | cons r rs ih => simp [insertDemo, ih]

theorem insertDemo_user_id (uid : Nat) (now : Int) (nid : Nat) (rows : List DemoRow) :
    ∀ e ∈ insertDemo uid now nid rows, e.user_id = uid := by
  induction rows generalizing nid with
  | nil => intro e he; cases he
  | cons r rs ih =>
    intro e he
    rcases List.mem_cons.mp he with rfl | he
    · rfl
    · exact ih (nid + 1) e he

theorem insertDemo_length (uid : Nat) (now : Int) (nid : Nat) (rows : List DemoRow) :
    (insertDemo uid now nid rows).length = rows.length := by
  induction rows generalizing nid with
  | nil => rfl
  | cons r rs ih => simp [insertDemo, ih]

theorem insertDemo_timestamps (uid : Nat) (now : Int) (nid : Nat) (rows : List DemoRow) :
    (insertDemo uid now nid rows).map Entry.timestamp =
      rows.map (fun r => now - (r.minutes_ago : Int)) := by
  induction rows generalizing nid with
  | nil => rfl
  | cons r rs ih => simp [insertDemo, ih]

theorem demo_offsets_mono :
    demo_entries.Pairwise (fun a b => a.minutes_ago ≤ b.minutes_ago) := by decide

theorem insertDemo_sorted (uid : Nat) (now : Int) (nid : Nat) :
    (insertDemo uid now nid demo_entries).Pairwise
      (fun a b => b.timestamp ≤ a.timestamp) := by
  have h1 : ((insertDemo uid now nid demo_entries).map Entry.timestamp).Pairwise
      (fun a b => b ≤ a) := by
    rw [insertDemo_timestamps, List.pairwise_map]
    exact demo_offsets_mono.imp
      (fun hab => sub_le_sub_left (by exact_mod_cast hab) now)
  exact List.pairwise_map.mp h1

/-! ## Sample data used by witnesses -/

/-- A sample store: one user with secret `sA`, owning two entries. -/
def dbA : DB :=
  { users := [⟨1, "k"⟩],
    entries := [⟨1, 1, 100, some ("morning walk"), none⟩,
                ⟨2, 1, 200, none, some 5⟩],
    nextUserId := 2, nextEntryId := 3 }

/-- The secret key of the sample user in `dbA`. -/
def sA : String := "k"

/-- A secret matching no user of `dbA`. -/
def sZ : String := "z"

/-- A sample valid payload. -/
def pA : EntryCreate := ⟨300, some ("quick note"), some 7⟩

/-- A fresh empty store (used by the demo claims). -/
def db0 : DB := { users := [], entries := [], nextUserId := 1, nextEntryId := 1 }

/-- A sample secret for the demo claims. -/
def sS : String := "s"

/-! ## Claims -/

/-- Claim C1: for every user looked up by a valid secret key, `get_entries`
succeeds and returns exactly the entries whose `user_id` equals the user's id,
ordered by timestamp descending; when that user owns no entries the result is
the empty sequence, not an error. -/
theorem C1_get_entries_all_sorted (db : DB) (secret : String) (u : User)
    (hu : findUser db secret = some u) :
    ∃ l, get_entries db secret = .ok l ∧
      l.Perm (db.entries.filter (fun e => e.user_id == u.id)) ∧
      l.Pairwise (fun a b => b.timestamp ≤ a.timestamp) ∧
      (db.entries.filter (fun e => e.user_id == u.id) = [] → l = []) := by
  refine ⟨sortDesc (db.entries.filter (fun e => e.user_id == u.id)), ?_, sortDesc_perm _,
    sortDesc_sorted _, ?_⟩
  · simp [get_entries, hu]
  · intro h; rw [h]; rfl

/-- Witness for C1 on the concrete store `dbA`. -/
theorem C1_get_entries_witness :
    ∃ l, get_entries dbA sA = .ok l ∧
      l.Perm (dbA.entries.filter (fun e => e.user_id == (1 : Nat))) ∧
      l.Pairwise (fun a b => b.timestamp ≤ a.timestamp) ∧
      (dbA.entries.filter (fun e => e.user_id == (1 : Nat)) = [] → l = []) :=
  C1_get_entries_all_sorted dbA sA ⟨1, "k"⟩ (by decide)

/-- Claim C2: a payload whose `description` and `energy` are both null is
rejected by the validator (422-equivalent) and no row is inserted by
`create_entry`; a payload with at least one of the two non-null, whose energy
(when present) is in range, passes the check. -/
theorem C2_validation_at_least_one (p : EntryCreate) :
    (p.description = none ∧ p.energy = none →
      (∃ m, check_at_least_one p = .error (.validation m)) ∧
      ∀ db secret, (create_entry db secret p).1 = db ∧
        ∃ m, (create_entry db secret p).2 = .error (.validation m)) ∧
    ((p.description ≠ none ∨ p.energy ≠ none) →
      (∀ v, p.energy = some v → 1 ≤ v ∧ v ≤ 10) →
      check_at_least_one p = .ok p) := by
  constructor
  · rintro ⟨hd, he⟩
    have hc : check_at_least_one p =
        .error (.validation ("At least one of description or energy must be provided")) := by
      simp [check_at_least_one, hd, he]
    exact ⟨⟨_, hc⟩, fun db secret => by rw [create_entry, hc]; exact ⟨rfl, _, rfl⟩⟩
  · intro hne hv
    rcases he : p.energy with _ | v
    · rw [check_at_least_one, if_neg (by tauto), he]
    · have hvr := hv v he
      have hc : check_at_least_one p =
          if v < 1 ∨ v > 10 then
            Except.error (Err.validation ("Energy must be between 1 and 10"))
          else Except.ok p := by
        rw [check_at_least_one, if_neg (by tauto), he]
      rw [hc, if_neg (by omega)]

/-- Witness for C2: the all-null payload is rejected without insertion, a
description-only payload is accepted. -/
theorem C2_validation_witness :
    ((∃ m, check_at_least_one ⟨0, none, none⟩ = .error (.validation m)) ∧
      ∀ db secret, (create_entry db secret ⟨0, none, none⟩).1 = db ∧
        ∃ m, (create_entry db secret ⟨0, none, none⟩).2 = .error (.validation m)) ∧
    check_at_least_one ⟨0, some ("x"), none⟩ = .ok ⟨0, some ("x"), none⟩ := by
  constructor
  · exact (C2_validation_at_least_one ⟨0, none, none⟩).1 ⟨rfl, rfl⟩
  · exact (C2_validation_at_least_one ⟨0, some ("x"), none⟩).2 (Or.inl (by simp))
      (fun v h => by cases h)

/-- Claim C3: with `energy` present, the validator rejects exactly when the
value is below 1 or above 10; out-of-range values get the range error. -/
theorem C3_energy_range (p : EntryCreate) (v : Int) (hv : p.energy = some v) :
    (check_at_least_one p = .ok p ↔ 1 ≤ v ∧ v ≤ 10) ∧
    (¬(1 ≤ v ∧ v ≤ 10) →
      check_at_least_one p = .error (.validation ("Energy must be between 1 and 10"))) := by
  have hne : ¬(p.description = none ∧ p.energy = none) := by
    rw [hv]; rintro ⟨-, h⟩; cases h
  have hc : check_at_least_one p =
      if v < 1 ∨ v > 10 then
        Except.error (Err.validation ("Energy must be between 1 and 10"))
      else Except.ok p := by
    rw [check_at_least_one, if_neg hne, hv]
  by_cases hr : v < 1 ∨ v > 10
  · rw [hc, if_pos hr]
    exact ⟨⟨fun h => Except.noConfusion h, fun h => absurd hr (by omega)⟩, fun _ => rfl⟩
  · rw [hc, if_neg hr]
    exact ⟨⟨fun _ => by omega, fun _ => rfl⟩, fun h => absurd (by omega) h⟩

/-- Witness for C3 at the boundary energies 0, 11, 1 and 10. -/
theorem C3_energy_range_witness :
    check_at_least_one ⟨0, none, some 0⟩ =
      .error (.validation ("Energy must be between 1 and 10")) ∧
    check_at_least_one ⟨0, none, some 11⟩ =
      .error (.validation ("Energy must be between 1 and 10")) ∧
    check_at_least_one ⟨0, none, some 1⟩ = .ok ⟨0, none, some 1⟩ ∧
    check_at_least_one ⟨0, none, some 10⟩ = .ok ⟨0, none, some 10⟩ :=
  ⟨(C3_energy_range ⟨0, none, some 0⟩ 0 rfl).2 (by omega),
   (C3_energy_range ⟨0, none, some 11⟩ 11 rfl).2 (by omega),
   (C3_energy_range ⟨0, none, some 1⟩ 1 rfl).1.mpr (by omega),
   (C3_energy_range ⟨0, none, some 10⟩ 10 rfl).1.mpr (by omega)⟩

/-- Claim C4: for a secret matching no user, `get_user_page`, `get_entries`
and `create_entry` (on any payload passing validation) all fail with 404, and
`create_entry` inserts nothing, whatever the payload. -/
theorem C4_unknown_secret_404 (db : DB) (secret : String)
    (h : ∀ u ∈ db.users, u.secret_key ≠ secret) :
    get_user_page db secret = .error .notFound ∧
    get_entries db secret = .error .notFound ∧
    (∀ p, (create_entry db secret p).1 = db) ∧
    (∀ p, check_at_least_one p = .ok p →
      (create_entry db secret p).2 = .error .notFound) := by
  have hf : findUser db secret = none := by
    have hnil : db.users.filter (fun u => u.secret_key == secret) = [] :=
      List.filter_eq_nil_iff.mpr (fun u hu => by simp [h u hu])
    simp [findUser, hnil]
  refine ⟨by simp [get_user_page, hf], by simp [get_entries, hf], ?_, ?_⟩
  · intro p
    rw [create_entry]
    rcases hc : check_at_least_one p with m | q
    · rfl
    · rw [hf]
  · intro p hp
    rw [create_entry, hp, hf]

/-- Witness for C4 on `dbA` with the unknown secret `sZ`. -/
theorem C4_unknown_secret_witness :
    get_user_page dbA sZ = .error .notFound ∧
    get_entries dbA sZ = .error .notFound ∧
    (∀ p, (create_entry dbA sZ p).1 = dbA) ∧
    (∀ p, check_at_least_one p = .ok p →
      (create_entry dbA sZ p).2 = .error .notFound) :=
  C4_unknown_secret_404 dbA sZ (by decide)

/-- The row inserted by a successful `create_entry`. -/
def mkRow (db : DB) (u : User) (p : EntryCreate) : Entry :=
  { id := db.nextEntryId, user_id := u.id, timestamp := p.timestamp,
    description := p.description, energy := p.energy }

theorem create_entry_ok_eq (db : DB) (secret : String) (p : EntryCreate) (u : User)
    (hu : findUser db secret = some u) (hp : check_at_least_one p = .ok p) :
    create_entry db secret p =
      ({ db with
          entries := db.entries ++ [mkRow db u p],
          nextEntryId := db.nextEntryId + 1 }, .ok (mkRow db u p)) := by
  rw [create_entry, hp, hu]
  rfl

theorem get_entries_ok_mem (db : DB) (secret : String) (u : User)
    (hu : findUser db secret = some u) :
    ∃ l, get_entries db secret = .ok l ∧
      ∀ e ∈ db.entries, e.user_id = u.id → e ∈ l := by
  refine ⟨sortDesc (db.entries.filter (fun e => e.user_id == u.id)), ?_, ?_⟩
  · rw [get_entries, hu]
  · intro e he hown
    exact (sortDesc_perm _).mem_iff.mpr
      (List.mem_filter.mpr ⟨he, by rw [hown]; exact beq_self_eq_true u.id⟩)

/-- Claim C5 as amended: `create_demo_user` creates one new user and appends
exactly 38 entries owned by it (the hard-coded table has 38 rows, not the 37
the claim states), each timestamped `now` minus the literal minutes-ago offset
of the table, carrying that row's literal description and optional energy. -/
theorem C5_demo_seed (db : DB) (now : Int) (secret : String) :
    (create_demo_user db now secret).users =
      db.users ++ [{ id := db.nextUserId, secret_key := secret }] ∧
    (create_demo_user db now secret).entries =
      db.entries ++ insertDemo db.nextUserId now db.nextEntryId demo_entries ∧
    (insertDemo db.nextUserId now db.nextEntryId demo_entries).length = 38 ∧
    (∀ e ∈ insertDemo db.nextUserId now db.nextEntryId demo_entries,
      e.user_id = db.nextUserId) ∧
    (insertDemo db.nextUserId now db.nextEntryId demo_entries).map
        (fun e => (e.timestamp, e.description, e.energy)) =
      demo_entries.map (fun r => (now - (r.minutes_ago : Int), some r.description, r.energy)) := by
  refine ⟨rfl, rfl, ?_, insertDemo_user_id db.nextUserId now db.nextEntryId demo_entries,
    insertDemo_fields db.nextUserId now db.nextEntryId demo_entries⟩
  rw [insertDemo_length]
  decide

/-- Counterexample to C5 as stated: seeding the empty store inserts 38 entry
rows, not 37 — the hard-coded table has 38 rows. -/
theorem C5_demo_seed_counterexample :
    (create_demo_user db0 10000 sS).entries.length = 38 ∧
    (create_demo_user db0 10000 sS).entries.length ≠ 37 := by
  decide

/-- Claim C6: for a valid secret and a payload passing validation,
`create_entry` appends exactly one row, owned by the resolved user and copying
the payload's timestamp, description and energy, and returns that row. -/
theorem C6_create_entry_inserts (db : DB) (secret : String) (p : EntryCreate) (u : User)
    (hu : findUser db secret = some u) (hp : check_at_least_one p = .ok p) :
    ∃ e : Entry,
      create_entry db secret p =
        ({ db with
            entries := db.entries ++ [e],
            nextEntryId := db.nextEntryId + 1 }, .ok e) ∧
      e.id = db.nextEntryId ∧ e.user_id = u.id ∧ e.timestamp = p.timestamp ∧
      e.description = p.description ∧ e.energy = p.energy :=
  ⟨mkRow db u p, create_entry_ok_eq db secret p u hu hp, rfl, rfl, rfl, rfl, rfl⟩

/-- Witness for C6 on the sample store and payload. -/
theorem C6_create_entry_witness :
    ∃ e : Entry,
      create_entry dbA sA pA =
        ({ dbA with
            entries := dbA.entries ++ [e],
            nextEntryId := dbA.nextEntryId + 1 }, .ok e) ∧
      e.id = dbA.nextEntryId ∧ e.user_id = (1 : Nat) ∧ e.timestamp = pA.timestamp ∧
      e.description = pA.description ∧ e.energy = pA.energy :=
  C6_create_entry_inserts dbA sA pA ⟨1, "k"⟩ (by decide) (by decide)

/-- Claim C7 as amended: after `create_demo_user`, listing the new user's
entries yields the 38 demo rows (not 37 as the claim states) newest first, the
most recent carrying description "Just had coffee" and energy 6 (the smallest
offset, 5, of the table). -/
theorem C7_demo_listing (db : DB) (now : Int) (secret : String)
    (hsec : ∀ u ∈ db.users, u.secret_key ≠ secret)
    (hid : ∀ e ∈ db.entries, e.user_id ≠ db.nextUserId) :
    ∃ l, get_entries (create_demo_user db now secret) secret = .ok l ∧
      l.length = 38 ∧
      l.Pairwise (fun a b => b.timestamp ≤ a.timestamp) ∧
      ∃ e, l.head? = some e ∧ e.description = some ("Just had coffee") ∧
        e.energy = some 6 := by
  have hfu : findUser (create_demo_user db now secret) secret =
      some ⟨db.nextUserId, secret⟩ := by
    have h1 : db.users.filter (fun u => u.secret_key == secret) = [] :=
      List.filter_eq_nil_iff.mpr (fun u hu => by simp [hsec u hu])
    show ((db.users ++ [({ id := db.nextUserId, secret_key := secret } : User)]).filter
      (fun u : User => u.secret_key == secret)).head? =
      some { id := db.nextUserId, secret_key := secret }
    rw [List.filter_append, h1, List.nil_append]
    simp
  have hfe : (create_demo_user db now secret).entries.filter
      (fun e => e.user_id == db.nextUserId) =
      insertDemo db.nextUserId now db.nextEntryId demo_entries := by
    show ((db.entries ++ insertDemo db.nextUserId now db.nextEntryId demo_entries).filter
      (fun e => e.user_id == db.nextUserId)) = _
    rw [List.filter_append]
    have h1 : db.entries.filter (fun e => e.user_id == db.nextUserId) = [] :=
      List.filter_eq_nil_iff.mpr (fun e he => by simp [hid e he])
    have h2 : (insertDemo db.nextUserId now db.nextEntryId demo_entries).filter
        (fun e => e.user_id == db.nextUserId) =
        insertDemo db.nextUserId now db.nextEntryId demo_entries :=
      List.filter_eq_self.mpr (fun e he => by
        rw [insertDemo_user_id db.nextUserId now db.nextEntryId demo_entries e he]
        exact beq_self_eq_true db.nextUserId)
    rw [h1, h2, List.nil_append]
  refine ⟨insertDemo db.nextUserId now db.nextEntryId demo_entries, ?_, ?_,
    insertDemo_sorted db.nextUserId now db.nextEntryId, ?_⟩
  · simp only [get_entries, hfu]
    rw [hfe, sortDesc_eq_of_sorted _ (insertDemo_sorted db.nextUserId now db.nextEntryId)]
  · rw [insertDemo_length]
    decide
  · exact ⟨⟨db.nextEntryId, db.nextUserId, now - ((5 : Nat) : Int),
      some ("Just had coffee"), some 6⟩, rfl, rfl, rfl⟩

/-- Counterexample to C7 as stated: the demo user's listing has 38 entries,
not 37. -/
theorem C7_demo_listing_counterexample :
    (get_entries (create_demo_user db0 10000 sS) sS).map List.length =
      Except.ok 38 ∧ (38 : Nat) ≠ 37 := by
  decide

/-- Witness for C7 seeding a demo user into the empty store. -/
theorem C7_demo_listing_witness :
    ∃ l, get_entries (create_demo_user db0 10000 sS) sS = .ok l ∧
      l.length = 38 ∧
      l.Pairwise (fun a b => b.timestamp ≤ a.timestamp) ∧
      ∃ e, l.head? = some e ∧ e.description = some ("Just had coffee") ∧
        e.energy = some 6 :=
  C7_demo_listing db0 10000 sS (by decide) (by decide)

/-- Claim C8: two sequential successful creations for the same user get
distinct, strictly increasing ids, and both rows appear in the subsequent
listing. -/
theorem C8_sequential_creates (db : DB) (secret : String) (u : User)
    (p1 p2 : EntryCreate) (hu : findUser db secret = some u)
    (h1 : check_at_least_one p1 = .ok p1) (h2 : check_at_least_one p2 = .ok p2) :
    ∃ db1 e1 db2 e2,
      create_entry db secret p1 = (db1, .ok e1) ∧
      create_entry db1 secret p2 = (db2, .ok e2) ∧
      e1.id ≠ e2.id ∧ e1.id < e2.id ∧
      ∃ l, get_entries db2 secret = .ok l ∧ e1 ∈ l ∧ e2 ∈ l := by
  refine
    ⟨{ db with
        entries := db.entries ++ [mkRow db u p1],
        nextEntryId := db.nextEntryId + 1 },
     mkRow db u p1,
     { db with
        entries := (db.entries ++ [mkRow db u p1]) ++
          [{ id := db.nextEntryId + 1,
             user_id := u.id,
             timestamp := p2.timestamp,
             description := p2.description,
             energy := p2.energy }],
        nextEntryId := db.nextEntryId + 1 + 1 },
     { id := db.nextEntryId + 1,
       user_id := u.id,
       timestamp := p2.timestamp,
       description := p2.description,
       energy := p2.energy },
     create_entry_ok_eq db secret p1 u hu h1, ?_, ?_, ?_, ?_⟩
  · exact create_entry_ok_eq
      { db with entries := db.entries ++ [mkRow db u p1], nextEntryId := db.nextEntryId + 1 }
      secret p2 u hu h2
  · show db.nextEntryId ≠ db.nextEntryId + 1
    omega
  · show db.nextEntryId < db.nextEntryId + 1
    omega
  · obtain ⟨l, hl, hmem⟩ := get_entries_ok_mem
      { db with
         entries := (db.entries ++ [mkRow db u p1]) ++
           [{ id := db.nextEntryId + 1,
              user_id := u.id,
              timestamp := p2.timestamp,
              description := p2.description,
              energy := p2.energy }],
         nextEntryId := db.nextEntryId + 1 + 1 } secret u hu
    refine ⟨l, hl, hmem _ ?_ rfl, hmem _ ?_ rfl⟩
    · exact List.mem_append.mpr (Or.inl (List.mem_append.mpr (Or.inr (List.mem_cons_self _ _))))
    · exact List.mem_append.mpr (Or.inr (List.mem_cons_self _ _))

/-- Witness for C8 on the sample store, inserting two payloads in a row. -/
theorem C8_sequential_witness :
    ∃ db1 e1 db2 e2,
      create_entry dbA sA pA = (db1, .ok e1) ∧
      create_entry db1 sA ⟨400, none, some 2⟩ = (db2, .ok e2) ∧
      e1.id ≠ e2.id ∧ e1.id < e2.id ∧
      ∃ l, get_entries db2 sA = .ok l ∧ e1 ∈ l ∧ e2 ∈ l :=
  C8_sequential_creates dbA sA ⟨1, "k"⟩ pA ⟨400, none, some 2⟩
    (by decide) (by decide) (by decide)

/-- Claim C9: the empty string counts as a provided description: a payload
with description `""` and null energy passes validation and is persisted with
description `""`; the at-least-one rule is decided by null-ness. -/
theorem C9_empty_description (t : Int) :
    check_at_least_one ⟨t, some (""), none⟩ = .ok ⟨t, some (""), none⟩ ∧
    ∀ db secret u, findUser db secret = some u →
      ∃ e, (create_entry db secret ⟨t, some (""), none⟩).2 = .ok e ∧
        e.description = some ("") := by
  refine ⟨rfl, ?_⟩
  intro db secret u hu
  rw [create_entry_ok_eq db secret ⟨t, some (""), none⟩ u hu rfl]
  exact ⟨mkRow db u ⟨t, some (""), none⟩, rfl, rfl⟩

/-- Witness for C9 on the sample store. -/
theorem C9_empty_description_witness :
    ∃ e, (create_entry dbA sA ⟨0, some (""), none⟩).2 = .ok e ∧
      e.description = some ("") :=
  (C9_empty_description 0).2 dbA sA ⟨1, "k"⟩ (by decide)

/-- Claim C10: a successful `create_entry` changes nothing but appending the
one new row: the users table, every pre-existing entry and the user counter
are exactly as before. -/
theorem C10_create_entry_frame (db : DB) (secret : String) (p : EntryCreate)
    (db2 : DB) (e : Entry) (h : create_entry db secret p = (db2, .ok e)) :
    db2.users = db.users ∧ db2.entries = db.entries ++ [e] ∧
    db2.nextUserId = db.nextUserId := by
  rw [create_entry] at h
  rcases hc : check_at_least_one p with m | q
  · rw [hc] at h
    exact absurd (congrArg Prod.snd h) (by simp)
  · rw [hc] at h
    rcases hfu : findUser db secret with _ | u
    · rw [hfu] at h
      exact absurd (congrArg Prod.snd h) (by simp)
    · rw [hfu] at h
      have h2 : (({ db with
          entries := db.entries ++ [mkRow db u q],
          nextEntryId := db.nextEntryId + 1 } : DB), Except.ok (mkRow db u q)) =
          (db2, Except.ok e) := h
      injection h2 with hdb hrow
      injection hrow with hrow
      subst hdb
      subst hrow
      exact ⟨rfl, rfl, rfl⟩

/-- The store after the sample insertion (used by the frame witness). -/
def dbB : DB :=
  { users := [⟨1, "k"⟩],
    entries := [⟨1, 1, 100, some ("morning walk"), none⟩,
                ⟨2, 1, 200, none, some 5⟩,
                ⟨3, 1, 300, some ("quick note"), some 7⟩],
    nextUserId := 2, nextEntryId := 4 }

/-- The row created by the sample insertion (used by the frame witness). -/
def eB : Entry := ⟨3, 1, 300, some ("quick note"), some 7⟩

/-- Witness for C10 on the sample store. -/
theorem C10_frame_witness :
    dbB.users = dbA.users ∧ dbB.entries = dbA.entries ++ [eB] ∧
    dbB.nextUserId = dbA.nextUserId :=
  C10_create_entry_frame dbA sA pA dbB eB (by decide)

end EnergyLog
